import Mathlib

/-!
Verification of the gtkx native FFI marshaling and cross-thread dispatch core
(`src/packages/native/src`), as a shallow embedding in Lean 4.

Conventions of the embedding:
* machine pointers are modelled as `Nat` addresses, `0` being the null pointer;
* JavaScript numbers are `f64` in the source; the embedding models the
  integral, exactly representable subdomain of `f64` as `Int` (every integer
  of magnitude at most `2^53` is represented exactly by `f64`, and Rust
  float-to-integer `as` casts on such values are the saturating casts
  modelled below);
* external native functions that only produce side effects
  (`g_object_ref`, `g_boxed_copy`, `g_free`, ...) are recorded in an explicit
  effect list instead of mutating a heap;
* reads of external native memory (C strings, GLists, null-terminated string
  vectors, the floating flag of a GObject) are supplied by a `NativeEnv`
  oracle, since that memory is written by foreign code outside the crate.
-/

namespace Gtkx

/-- Raw pointers (`*mut c_void`): modelled as addresses, `0` is null. -/
abbrev Ptr := Nat

/-- `ptr.is_null()`. -/
def isNull (p : Ptr) : Bool := p == 0

/-! ## Association-map helpers

The source stores the object registry and the library cache in `HashMap`s;
the embedding uses association lists with the same lookup/insert/remove
semantics (`insert` replaces an existing binding). -/

/-- `HashMap::get`. -/
def mapLookup {α : Type} : List (Nat × α) → Nat → Option α
  | [], _ => none
  | (k, v) :: rest, key => if k = key then some v else mapLookup rest key

/-- `HashMap::insert` (replaces an existing binding for the key). -/
def mapInsert {α : Type} (m : List (Nat × α)) (k : Nat) (v : α) : List (Nat × α) :=
  (k, v) :: m.filter (fun p => p.1 ≠ k)

/-- `HashMap::remove`. -/
def mapRemove {α : Type} (m : List (Nat × α)) (k : Nat) : List (Nat × α) :=
  m.filter (fun p => p.1 ≠ k)

/-- String-keyed lookup, for the library cache. -/
def smapLookup {α : Type} : List (String × α) → String → Option α
  | [], _ => none
  | (k, v) :: rest, key => if k = key then some v else smapLookup rest key

/-- String-keyed insert, for the library cache. -/
def smapInsert {α : Type} (m : List (String × α)) (k : String) (v : α) :
    List (String × α) :=
  (k, v) :: m.filter (fun p => p.1 ≠ k)

/-! ## Type descriptors (`types.rs`, `types/*.rs`) -/

/-- `IntegerSize` as used across `cif.rs`, `value.rs` and `module/call.rs`
(which all match on an `_16` variant in addition to `_8`, `_32`, `_64`). -/
inductive IntegerSize where
  | s8 | s16 | s32 | s64
deriving DecidableEq, Repr

/-- `IntegerSign`. -/
inductive IntegerSign where
  | unsigned | signed
deriving DecidableEq, Repr

/-- `IntegerType`. -/
structure IntegerType where
  size : IntegerSize
  sign : IntegerSign
deriving DecidableEq, Repr

/-- `IntegerSize::from_js_value` (`types/integer.rs` lines 12-22): the size
field of the descriptor is read as a number and cast `as u64`; only the
literal sizes 8, 32 and 64 parse, every other size throws
"Invalid integer size".  Note that this parser has no arm for 16 even though
the `IntegerSize` consumers in `cif.rs`/`value.rs`/`module/call.rs` and the
doc comment of `types.rs` (\"i8, u8, i16, u16, i32, u32, i64, u64\") include
the 16-bit width. -/
def IntegerSize.from_js_value (size : Nat) : Except String IntegerSize :=
  match size with
  | 8 => .ok .s8
  | 32 => .ok .s32
  | 64 => .ok .s64
  | _ => .error "Invalid integer size"

/-- `FloatSize`. -/
inductive FloatSize where
  | f32 | f64
deriving DecidableEq, Repr

/-- `FloatType`. -/
structure FloatType where
  size : FloatSize
deriving DecidableEq, Repr

/-- `StringType`. -/
structure StringType where
  is_borrowed : Bool
deriving DecidableEq, Repr

/-- `GObjectType`. -/
structure GObjectType where
  is_borrowed : Bool
deriving DecidableEq, Repr

/-- `BoxedType` (`types/boxed.rs`).  `get_gtype` resolves the type name
against the glib type registry (and optionally a `_get_type` symbol from the
owning library); that lookup is external, so the embedding carries its
outcome as the field `gtype` (`none` when the GType cannot be resolved). -/
structure BoxedType where
  is_borrowed : Bool
  type_ : String
  lib : Option String
  gtype : Option Nat
deriving DecidableEq, Repr

/-- `BoxedType::get_type` outcome (see the `gtype` field). -/
def BoxedType.get_gtype (t : BoxedType) : Option Nat := t.gtype

/-- `GVariantType`. -/
structure GVariantType where
  is_borrowed : Bool
deriving DecidableEq, Repr

/-- `ListType` (contiguous array / GList / GSList), from `value.rs`. -/
inductive ListType where
  | array | glist | gslist
deriving DecidableEq, Repr

/-- `CallbackTrampoline` as used by `cif.rs` (`Closure`, `AsyncReady`,
`Destroy`, `SourceFunc`, `DrawFunc`, `CompareDataFunc`). -/
inductive CallbackTrampoline where
  | closure | asyncReady | destroy | sourceFunc | drawFunc | compareDataFunc
deriving DecidableEq, Repr

/-- The type descriptor variant set (`types.rs` `Type`; `Type` is reserved in
Lean so the embedding names it `Ty`).  The recursive `array`, `callback` and
`ref` descriptors inline their sub-structures. -/
inductive Ty where
  | integer (t : IntegerType)
  | float (t : FloatType)
  | string (t : StringType)
  | null
  | undefined
  | boolean
  | gobject (t : GObjectType)
  | boxed (t : BoxedType)
  | gvariant (t : GVariantType)
  | array (item_type : Ty) (list_type : ListType) (is_borrowed : Bool)
  | callback (trampoline : CallbackTrampoline)
  | ref (inner_type : Ty)
deriving DecidableEq, Repr

/-! ## Objects and the registry (`object.rs`, `boxed.rs`, `gvariant.rs`,
`state.rs`) -/

/-- `Boxed` (`boxed.rs`): a raw pointer, its optional GType, and whether the
wrapper owns (and will eventually `g_boxed_free`) the allocation. -/
structure Boxed where
  ptr : Ptr
  type_ : Option Nat
  is_owned : Bool
deriving DecidableEq, Repr

/-- `GVariant` (`gvariant.rs`). -/
structure GVariant where
  ptr : Ptr
  is_owned : Bool
deriving DecidableEq, Repr

/-- `Object` (`object.rs`): a GObject, a boxed struct, or a GVariant.  The
GObject variant carries the native address of the wrapped `glib::Object`. -/
inductive Object where
  | gObject (ptr : Ptr)
  | boxedObj (b : Boxed)
  | gVariant (v : GVariant)
deriving DecidableEq, Repr

/-- The per-GTK-thread state (`state.rs` `GtkThreadState`): the object map,
the id counter (starting at 1), and the library cache.  A loaded
`libloading::Library` is opaque to the crate; the embedding represents it by
an abstract handle. -/
structure GtkThreadState where
  object_map : List (Nat × Object)
  next_object_id : Nat
  libraries : List (String × Nat)
deriving DecidableEq, Repr

/-- `GtkThreadState::default()`. -/
def GtkThreadState.default : GtkThreadState :=
  { object_map := [], next_object_id := 1, libraries := [] }

/-- `ObjectId::new` (`object.rs` lines 51-58): takes the current counter as
the fresh id, increments the counter, inserts the object, and returns the
id together with the updated state. -/
def ObjectId.new (st : GtkThreadState) (object : Object) : Nat × GtkThreadState :=
  let id := st.next_object_id
  (id, { st with
          next_object_id := st.next_object_id + 1,
          object_map := mapInsert st.object_map id object })

/-- The native address stored for an object (the match inside
`ObjectId::as_ptr`): `obj.as_ptr()` for GObjects, `*boxed.as_ref()` for boxed
structs, `variant.as_ptr()` for GVariants. -/
def Object.addr : Object → Ptr
  | .gObject p => p
  | .boxedObj b => b.ptr
  | .gVariant v => v.ptr

/-- `ObjectId::as_ptr` (`object.rs` lines 61-69): registry lookup; `none`
once the object has been removed ("garbage collected"). -/
def ObjectId.as_ptr (st : GtkThreadState) (id : Nat) : Option Ptr :=
  (mapLookup st.object_map id).map Object.addr

/-- The body of the removal task scheduled by `ObjectId::finalize`
(`object.rs` lines 77-85): `state.object_map.remove(&self.0)`. -/
def ObjectId.remove (st : GtkThreadState) (id : Nat) : GtkThreadState :=
  { st with object_map := mapRemove st.object_map id }

/-! ## Library loading (`state.rs::get_library`)

`Library::open` calls into the dynamic linker, so the embedding takes the
loader as an oracle `String → Except String Nat` mapping a single library
name to a handle or a load error. -/

/-- Helper for `splitOnComma`: structural split of a character list at every
comma, keeping empty pieces (the semantics of Rust's `str::split(',')`). -/
def splitChars : List Char → List Char → List String
  | [], acc => [String.mk acc.reverse]
  | c :: rest, acc =>
    if c = ',' then String.mk acc.reverse :: splitChars rest []
    else splitChars rest (c :: acc)

/-- The `name.split(',')` of `get_library`: split at every comma, empty
pieces preserved (so the result is never empty). -/
def splitOnComma (s : String) : List String := splitChars s.data []

/-- The alternatives loop of `get_library`: try each name in order, return
the first handle that loads, otherwise remember (only) the last error. -/
def tryAlternatives (loader : String → Except String Nat) :
    List String → Option String → Sum Nat (Option String)
  | [], last_error => .inr last_error
  | lib_name :: rest, _ =>
    match loader lib_name with
    | .ok lib => .inl lib
    | .error err => tryAlternatives loader rest (some err)

/-- `GtkThreadState::get_library` (`state.rs` lines 98-124): a cached entry
under the full (comma-separated) name is returned as-is; otherwise the name
is split on commas, the alternatives are tried in order, the first success is
cached under the full name, and on total failure a single error naming the
full string and the last alternative's error is returned. -/
def GtkThreadState.get_library (loader : String → Except String Nat)
    (st : GtkThreadState) (name : String) :
    Except String Nat × GtkThreadState :=
  match smapLookup st.libraries name with
  | some lib => (.ok lib, st)
  | none =>
    let lib_names := splitOnComma name
    match tryAlternatives loader lib_names none with
    | .inl lib => (.ok lib, { st with libraries := smapInsert st.libraries name lib })
    | .inr (some err) =>
      (.error ("Failed to load library " ++ name ++ ": " ++ err), st)
    | .inr none =>
      (.error ("Failed to load library " ++ name ++ ": no libraries specified"), st)

/-! ## Numeric casts

Rust float-to-integer `as` casts round toward zero and saturate at the
integer type's bounds; on the integral subdomain modelled here they are
exactly the clamp to the type's range.  `f64`-to-`f32` casts round to the
nearest 24-bit-significand value (ties to even). -/

/-- Smallest value of a machine integer type. -/
def intMin (size : IntegerSize) (sign : IntegerSign) : Int :=
  match sign, size with
  | .unsigned, _ => 0
  | .signed, .s8 => -(2 ^ 7)
  | .signed, .s16 => -(2 ^ 15)
  | .signed, .s32 => -(2 ^ 31)
  | .signed, .s64 => -(2 ^ 63)

/-- Largest value of a machine integer type. -/
def intMax (size : IntegerSize) (sign : IntegerSign) : Int :=
  match sign, size with
  | .unsigned, .s8 => 2 ^ 8 - 1
  | .unsigned, .s16 => 2 ^ 16 - 1
  | .unsigned, .s32 => 2 ^ 32 - 1
  | .unsigned, .s64 => 2 ^ 64 - 1
  | .signed, .s8 => 2 ^ 7 - 1
  | .signed, .s16 => 2 ^ 15 - 1
  | .signed, .s32 => 2 ^ 31 - 1
  | .signed, .s64 => 2 ^ 63 - 1

/-- The saturating `f64 as iN` / `f64 as uN` cast on integral values:
clamp into the target range. -/
def satCast (t : IntegerType) (n : Int) : Int :=
  max (intMin t.size t.sign) (min (intMax t.size t.sign) n)

/-- Round a natural number to the nearest value with at most `bits`
significant bits, ties to even (the IEEE-754 rounding used by `as f32`). -/
def roundSigNat (bits : Nat) (m : Nat) : Nat :=
  if m < 2 ^ bits then m
  else
    let e := Nat.log2 m + 1 - bits
    let q := m / 2 ^ e
    let r := m % 2 ^ e
    let half := 2 ^ (e - 1)
    if r > half then (q + 1) * 2 ^ e
    else if r < half then q * 2 ^ e
    else if q % 2 = 0 then q * 2 ^ e else (q + 1) * 2 ^ e

/-- The `f64 as f32` narrowing cast on integral values: round to the nearest
`f32`-representable value (24-bit significand, ties to even). -/
def f32Cast (n : Int) : Int :=
  if n < 0 then -(roundSigNat 24 n.natAbs : Int) else (roundSigNat 24 n.natAbs : Int)

/-! ## CIF values (`cif.rs`) -/

namespace cif

mutual

/-- `cif::Value`: the libffi call representation of one argument or result.
Unsigned machine integers carry the `Nat` they hold, signed ones the `Int`;
both are produced only by the saturating casts above, so they are always in
range.  `f32`/`f64` carry the modelled integral float value. -/
inductive Value where
  | u8 (v : Nat)
  | i8 (v : Int)
  | u16 (v : Nat)
  | i16 (v : Int)
  | u32 (v : Nat)
  | i32 (v : Int)
  | u64 (v : Nat)
  | i64 (v : Int)
  | f32 (v : Int)
  | f64 (v : Int)
  | ptr (p : Ptr)
  | ownedPtr (o : OwnedPtr)
  | trampolineCallback (t : TrampolineCallbackValue)
  | void
deriving DecidableEq, Repr

/-- `cif::OwnedPtr`: the raw pointer handed to the call plus the boxed Rust
value that owns the backing memory. -/
inductive OwnedPtr where
  | mk (ptr : Ptr) (value : Backing)
deriving DecidableEq, Repr

/-- `cif::TrampolineCallbackValue`. -/
inductive TrampolineCallbackValue where
  | mk (trampoline_ptr : Ptr) (closure : OwnedPtr) (destroy_ptr : Option Ptr)
deriving DecidableEq, Repr

/-- The `Box<dyn Any>` payloads that occur as `OwnedPtr` backing in
`cif.rs` (each variant corresponds to one concrete Rust type, so the
`downcast_ref` calls of `value.rs` become constructor matches). -/
inductive Backing where
  | cstring (s : String)
  | vecU8 (vals : List Nat)
  | vecI8 (vals : List Int)
  | vecU16 (vals : List Nat)
  | vecI16 (vals : List Int)
  | vecU32 (vals : List Nat)
  | vecI32 (vals : List Int)
  | vecU64 (vals : List Nat)
  | vecI64 (vals : List Int)
  | vecF32 (vals : List Int)
  | vecF64 (vals : List Int)
  | cstringsPtrs (cstrings : List String) (ptrs : List Ptr)
  | idsPtrs (ids : List Nat) (ptrs : List Ptr)
  | closureBox
  | ptrStorage (contents : Ptr)
  | unitBox
  | cifValue (v : Value)
deriving DecidableEq, Repr

end

/-- The `ptr` field of an `OwnedPtr`. -/
def OwnedPtr.ptr : OwnedPtr → Ptr
  | .mk p _ => p

/-- The owning `value` field of an `OwnedPtr`. -/
def OwnedPtr.value : OwnedPtr → Backing
  | .mk _ b => b

end cif

/-! ## Side effects and the native-memory oracle -/

/-- The externally observable native calls performed while marshaling
(reference counts, copies, frees). -/
inductive Effect where
  | gObjectRef (p : Ptr)
  | gObjectRefSink (p : Ptr)
  | gBoxedCopy (gtype : Nat) (src : Ptr) (dst : Ptr)
  | gVariantRefSink (p : Ptr)
  | gFree (p : Ptr)
  | gStrfreev (p : Ptr)
  | gListFree (p : Ptr)
deriving DecidableEq, Repr

/-- Oracle for everything the crate reads from foreign memory or from the
allocator: addresses of Rust-owned backings, C strings, GList chains,
null-terminated string vectors, the floating flag of a GObject, the address
returned by `g_boxed_copy`, and the contents of out-parameter slots after the
native call wrote to them. -/
structure NativeEnv where
  addrOf : cif.Backing → Ptr
  readCStr : Ptr → String
  readGList : Ptr → List Ptr
  readStrv : Ptr → List String
  isFloating : Ptr → Bool
  boxedCopyAddr : Ptr → Ptr
  readPtrSlot : Ptr → Ptr
  readIntSlot : IntegerType → Ptr → Int
  readFloatSlot : FloatType → Ptr → Int

/-! ## Dynamic values (`value.rs`) -/

namespace value

/-- `value::Value`: the dynamic (JavaScript-side) value union.  Rooted JS
functions and JS objects are opaque handles. -/
inductive Value where
  | number (n : Int)
  | string (s : String)
  | boolean (b : Bool)
  | object (id : Nat)
  | null
  | undefined
  | array (items : List Value)
  | callback (cb : Nat)
  | ref (value : Value) (js_obj : Nat)

end value

/-- `arg::Arg` as consumed by `cif.rs` (which reads `arg.type_`, `arg.value`
and `arg.optional`). -/
structure Arg where
  type_ : Ty
  value : value.Value
  optional : Bool

/-! ## Wrapper constructors with ownership semantics
(`boxed.rs`, `gvariant.rs`) -/

/-- `Boxed::from_glib_full` (`boxed.rs` lines 13-19): take the pointer
as-is, owned. -/
def Boxed.from_glib_full (type_ : Option Nat) (p : Ptr) : Boxed × List Effect :=
  ({ ptr := p, type_ := type_, is_owned := true }, [])

/-- `Boxed::from_glib_none` (`boxed.rs` lines 21-36): with a known GType,
`g_boxed_copy` the value and own the copy; with an unknown GType, take the
pointer as-is, not owned (no copy). -/
def Boxed.from_glib_none (env : NativeEnv) (type_ : Option Nat) (p : Ptr) :
    Boxed × List Effect :=
  match type_ with
  | some gtype =>
    let cloned := env.boxedCopyAddr p
    ({ ptr := cloned, type_ := some gtype, is_owned := true },
     [.gBoxedCopy gtype p cloned])
  | none => ({ ptr := p, type_ := none, is_owned := false }, [])

/-- `GVariant::from_glib_full` (`gvariant.rs`): take the pointer as-is,
owned. -/
def GVariant.from_glib_full (p : Ptr) : GVariant × List Effect :=
  ({ ptr := p, is_owned := true }, [])

/-- `GVariant::from_glib_none` (`gvariant.rs`): null stays null; otherwise
`g_variant_ref_sink` and own the reference. -/
def GVariant.from_glib_none (p : Ptr) : GVariant × List Effect :=
  if isNull p then ({ ptr := 0, is_owned := false }, [])
  else ({ ptr := p, is_owned := true }, [.gVariantRefSink p])

/-! ## Marshaling a dynamic value into a CIF value
(`impl TryFrom<arg::Arg> for Value`, `cif.rs` lines 178-296 and the
`try_from_array` / `try_from_callback` / `try_from_ref` helpers) -/

/-- The integer arm's cast dispatch (`cif.rs` lines 190-207): `number as uN`
or `number as iN`. -/
def cifIntValue (t : IntegerType) (number : Int) : cif.Value :=
  match t.size, t.sign with
  | .s8, .unsigned => .u8 (satCast t number).toNat
  | .s8, .signed => .i8 (satCast t number)
  | .s16, .unsigned => .u16 (satCast t number).toNat
  | .s16, .signed => .i16 (satCast t number)
  | .s32, .unsigned => .u32 (satCast t number).toNat
  | .s32, .signed => .i32 (satCast t number)
  | .s64, .unsigned => .u64 (satCast t number).toNat
  | .s64, .signed => .i64 (satCast t number)

/-- The element collection loops of `try_from_array`: every element must be
a `Number`. -/
def collectNumbers (msg : String) : List value.Value → Except String (List Int)
  | [] => .ok []
  | .number n :: rest => do pure (n :: (← collectNumbers msg rest))
  | _ :: _ => .error msg

/-- String element collection of `try_from_array` (each element goes through
`CString::new`, which rejects interior nul bytes). -/
def collectStrings : List value.Value → Except String (List String)
  | [] => .ok []
  | .string s :: rest =>
    if s.contains (Char.ofNat 0) then .error "nul byte found in provided data"
    else do pure (s :: (← collectStrings rest))
  | _ :: _ => .error "Expected a String for string item type"

/-- Object-id element collection of `try_from_array`. -/
def collectIds : List value.Value → Except String (List Nat)
  | [] => .ok []
  | .object id :: rest => do pure (id :: (← collectIds rest))
  | _ :: _ => .error "Expected an Object for gobject item type"

/-- Boolean element collection of `try_from_array`. -/
def collectBools : List value.Value → Except String (List Bool)
  | [] => .ok []
  | .boolean b :: rest => do pure (b :: (← collectBools rest))
  | _ :: _ => .error "Expected a Boolean for boolean item type"

/-- The per-width integer buffer construction of `try_from_array`
(`cif.rs` lines 345-394): each element is cast with the saturating
`f64 as iN` cast into a typed vector. -/
def intArrayBacking (t : IntegerType) (values : List Int) : cif.Backing :=
  match t.size, t.sign with
  | .s8, .unsigned => .vecU8 (values.map (fun v => (satCast t v).toNat))
  | .s8, .signed => .vecI8 (values.map (fun v => satCast t v))
  | .s16, .unsigned => .vecU16 (values.map (fun v => (satCast t v).toNat))
  | .s16, .signed => .vecI16 (values.map (fun v => satCast t v))
  | .s32, .unsigned => .vecU32 (values.map (fun v => (satCast t v).toNat))
  | .s32, .signed => .vecI32 (values.map (fun v => satCast t v))
  | .s64, .unsigned => .vecU64 (values.map (fun v => (satCast t v).toNat))
  | .s64, .signed => .vecI64 (values.map (fun v => satCast t v))

/-- The tail of the GObject argument arm (`cif.rs` lines 255-263): when the
descriptor demands ownership transfer and the pointer is non-null,
`g_object_ref` it once before handing it to the call. -/
def gobjectArgResult (type_ : GObjectType) (p : Ptr) : cif.Value × List Effect :=
  let is_transfer_full := !type_.is_borrowed && !isNull p
  if is_transfer_full then (.ptr p, [Effect.gObjectRef p]) else (.ptr p, [])

/-- The tail of the Boxed argument arm (`cif.rs` lines 279-289): ownership
transfer with a resolvable GType deep-copies via `g_boxed_copy` and hands
the copy to the call; otherwise the pointer is passed unchanged. -/
def boxedArgResult (env : NativeEnv) (type_ : BoxedType) (p : Ptr) :
    cif.Value × List Effect :=
  let is_transfer_full := !type_.is_borrowed && !isNull p
  if is_transfer_full then
    match type_.get_gtype with
    | some gtype =>
      (.ptr (env.boxedCopyAddr p), [Effect.gBoxedCopy gtype p (env.boxedCopyAddr p)])
    | none => (.ptr p, [])
  else (.ptr p, [])

/-- The fixed C trampoline entry points fetched from the `callback` module
(external C-compatible functions; modelled as distinct opaque addresses). -/
def get_async_ready_trampoline_ptr : Ptr := 11

/-- See `get_async_ready_trampoline_ptr`. -/
def get_destroy_trampoline_ptr : Ptr := 12

/-- See `get_async_ready_trampoline_ptr`. -/
def get_source_func_trampoline_ptr : Ptr := 13

/-- See `get_async_ready_trampoline_ptr`. -/
def get_draw_func_trampoline_ptr : Ptr := 14

/-- See `get_async_ready_trampoline_ptr`. -/
def get_compare_data_func_trampoline_ptr : Ptr := 15

/-- See `get_async_ready_trampoline_ptr`. -/
def get_unref_closure_trampoline_ptr : Ptr := 16

/-- The address of the GClosure built for a callback handle (the closure is
allocated by glib; its address is irrelevant to the verified properties). -/
def closureAddr (env : NativeEnv) (_cb : Nat) : Ptr :=
  env.addrOf (.closureBox)

/-- `impl TryFrom<arg::Arg> for cif::Value` (`cif.rs` lines 178-296),
including the `try_from_array`, `try_from_callback` and `try_from_ref`
helpers, as a function of the descriptor, the dynamic value and the
`optional` flag.  Returns the CIF value together with the list of native
side effects performed while marshaling. -/
def cifTryFromTy (st : GtkThreadState) (env : NativeEnv) :
    Ty → value.Value → Bool → Except String (cif.Value × List Effect)
  | .integer type_, val, optional =>
    match val with
    | .number n => .ok (cifIntValue type_ n, [])
    | .null | .undefined =>
      if optional then .ok (cifIntValue type_ 0, [])
      else .error "Expected a Number for integer type"
    | _ => .error "Expected a Number for integer type"
  | .float type_, val, _ =>
    match val with
    | .number n =>
      match type_.size with
      | .f32 => .ok (.f32 (f32Cast n), [])
      | .f64 => .ok (.f64 n, [])
    | _ => .error "Expected a Number for float type"
  | .string _, val, _ =>
    match val with
    | .string s =>
      if s.contains (Char.ofNat 0) then .error "nul byte found in provided data"
      else
        let backing := cif.Backing.cstring s
        .ok (.ownedPtr (.mk (env.addrOf backing) backing), [])
    | .null | .undefined => .ok (.ptr 0, [])
    | _ => .error "Expected a String for string type"
  | .boolean, val, _ =>
    match val with
    | .boolean b => .ok (.u8 (if b then 1 else 0), [])
    | _ => .error "Expected a Boolean for boolean type"
  | .null, _, _ => .ok (.ptr 0, [])
  | .undefined, _, _ => .ok (.ptr 0, [])
  | .gvariant _, _, _ =>
    -- the `cif.rs` revision in the tree has no GVariant argument arm (the
    -- variant only occurs on the return path, in `value.rs`)
    .error "Unsupported type"
  | .gobject type_, val, _ =>
    match val with
    | .object id =>
      match ObjectId.as_ptr st id with
      | some p => .ok (gobjectArgResult type_ p)
      | none => .error "GObject has been garbage collected"
    | .null | .undefined => .ok (gobjectArgResult type_ 0)
    | _ => .error "Expected an Object for gobject type"
  | .boxed type_, val, _ =>
    match val with
    | .object id =>
      match ObjectId.as_ptr st id with
      | some p => .ok (boxedArgResult env type_ p)
      | none => .error "Boxed object has been garbage collected"
    | .null | .undefined => .ok (boxedArgResult env type_ 0)
    | _ => .error "Expected an Object for boxed type"
  | .array item_type _ _, val, _ => do
    let array ←
      match val with
      | .array arr => pure arr
      | _ => throw "Expected an Array for array type"
    match item_type with
    | .integer t => do
      let values ← collectNumbers "Expected a Number for integer item type" array
      let backing := intArrayBacking t values
      pure (cif.Value.ownedPtr (.mk (env.addrOf backing) backing), [])
    | .float t => do
      let values ← collectNumbers "Expected a Number for float item type" array
      let backing :=
        match t.size with
        | .f32 => cif.Backing.vecF32 (values.map f32Cast)
        | .f64 => cif.Backing.vecF64 values
      pure (cif.Value.ownedPtr (.mk (env.addrOf backing) backing), [])
    | .string _ => do
      let cstrings ← collectStrings array
      let ptrs := cstrings.map (fun s => env.addrOf (.cstring s)) ++ [0]
      let backing := cif.Backing.cstringsPtrs cstrings ptrs
      pure (cif.Value.ownedPtr (.mk (env.addrOf backing) backing), [])
    | .gobject _ | .boxed _ => do
      let ids ← collectIds array
      let ptrs := ids.map (fun id => (ObjectId.as_ptr st id).getD 0)
      let backing := cif.Backing.idsPtrs ids ptrs
      pure (cif.Value.ownedPtr (.mk (env.addrOf backing) backing), [])
    | .boolean => do
      let values ← collectBools array
      let backing := cif.Backing.vecU8 (values.map (fun b => if b then 1 else 0))
      pure (cif.Value.ownedPtr (.mk (env.addrOf backing) backing), [])
    | _ => throw "Unsupported array item type"
  | .callback trampoline, val, optional =>
    match val with
    | .callback cb =>
      match trampoline with
      | .closure =>
        let backing := cif.Backing.closureBox
        .ok (.ownedPtr (.mk (closureAddr env cb) backing), [])
      | .asyncReady =>
        .ok (.trampolineCallback
          (.mk get_async_ready_trampoline_ptr
            (.mk (closureAddr env cb) .closureBox) none), [])
      | .destroy =>
        .ok (.trampolineCallback
          (.mk get_destroy_trampoline_ptr
            (.mk (closureAddr env cb) .closureBox) none), [])
      | .sourceFunc =>
        .ok (.trampolineCallback
          (.mk get_source_func_trampoline_ptr
            (.mk (closureAddr env cb) .unitBox)
            (some get_unref_closure_trampoline_ptr)), [])
      | .drawFunc =>
        .ok (.trampolineCallback
          (.mk get_draw_func_trampoline_ptr
            (.mk (closureAddr env cb) .unitBox)
            (some get_unref_closure_trampoline_ptr)), [])
      | .compareDataFunc =>
        .ok (.trampolineCallback
          (.mk get_compare_data_func_trampoline_ptr
            (.mk (closureAddr env cb) .unitBox)
            (some get_unref_closure_trampoline_ptr)), [])
    | .null | .undefined =>
      if optional then .ok (.ptr 0, [])
      else .error "Expected a Callback for callback type"
    | _ => .error "Expected a Callback for callback type"
  | .ref inner_type, val, _ =>
    match val with
    | .ref v _ =>
      match inner_type with
      | .boxed _ | .gobject _ =>
        match v with
        | .object id =>
          match ObjectId.as_ptr st id with
          | some p => .ok (.ptr p, [])
          | none => .error "Ref object has been garbage collected"
        | .null | .undefined =>
          let backing := cif.Backing.ptrStorage 0
          .ok (.ownedPtr (.mk (env.addrOf backing) backing), [])
        | _ => .error "Expected an Object or Null for Ref of Boxed or GObject"
      | _ => do
        let (ref_value, effs) ← cifTryFromTy st env inner_type v false
        let backing := cif.Backing.cifValue ref_value
        pure (cif.Value.ownedPtr (.mk (env.addrOf backing) backing), effs)
    | .null | .undefined => .ok (.ptr 0, [])
    | _ => .error "Expected a Ref for ref type"

/-- The `TryFrom<arg::Arg>` entry point itself. -/
def cifValueOfArg (st : GtkThreadState) (env : NativeEnv) (arg : Arg) :
    Except String (cif.Value × List Effect) :=
  cifTryFromTy st env arg.type_ arg.value arg.optional

/-! ## Converting a CIF result back into a dynamic value
(`Value::from_cif_value`, `value.rs` lines 231-750) -/

/-- The GList/GSList walk of the Array arm (`value.rs` lines 394-435):
convert each node's data pointer according to the item type, registering
created objects; a null data pointer becomes `Null`; an unsupported item
type fails at the first node. -/
def fromGListItems (env : NativeEnv) (item_type : Ty) :
    List Ptr → GtkThreadState →
    Except String (List value.Value × GtkThreadState × List Effect)
  | [], st => .ok ([], st, [])
  | data :: rest, st => do
    let (item_value, st1, effs1) ←
      match item_type with
      | .gobject _ =>
        if isNull data then pure (value.Value.null, st, [])
        else
          -- glib::Object::from_glib_none takes an additional reference
          let (id, st') := ObjectId.new st (.gObject data)
          pure (value.Value.object id, st', [Effect.gObjectRef data])
      | .boxed boxed_type =>
        if isNull data then pure (value.Value.null, st, [])
        else
          let gtype := boxed_type.get_gtype
          let (bx, effs) := Boxed.from_glib_none env gtype data
          let (id, st') := ObjectId.new st (.boxedObj bx)
          pure (value.Value.object id, st', effs)
      | .string _ =>
        if isNull data then pure (value.Value.null, st, [])
        else pure (value.Value.string (env.readCStr data), st, [])
      | _ => throw "Unsupported GList item type"
    let (values, st2, effs2) ← fromGListItems env item_type rest st1
    pure (item_value :: values, st2, effs1 ++ effs2)

/-- The `Vec<T>` downcast dispatch of the Array/OwnedPtr arm
(`value.rs` lines 489-634): each item type downcasts the owned backing to
its concrete vector type and converts elementwise. -/
def fromOwnedArrayBacking (item_type : Ty) (backing : cif.Backing) :
    Except String (List value.Value) :=
  match item_type, backing with
  | .integer ⟨.s8, .unsigned⟩, .vecU8 vals =>
    .ok (vals.map (fun v => .number (Int.ofNat v)))
  | .integer ⟨.s8, .signed⟩, .vecI8 vals => .ok (vals.map (fun v => .number v))
  | .integer ⟨.s16, .unsigned⟩, .vecU16 vals =>
    .ok (vals.map (fun v => .number (Int.ofNat v)))
  | .integer ⟨.s16, .signed⟩, .vecI16 vals => .ok (vals.map (fun v => .number v))
  | .integer ⟨.s32, .unsigned⟩, .vecU32 vals =>
    .ok (vals.map (fun v => .number (Int.ofNat v)))
  | .integer ⟨.s32, .signed⟩, .vecI32 vals => .ok (vals.map (fun v => .number v))
  | .integer ⟨.s64, .unsigned⟩, .vecU64 vals =>
    .ok (vals.map (fun v => .number (Int.ofNat v)))
  | .integer ⟨.s64, .signed⟩, .vecI64 vals => .ok (vals.map (fun v => .number v))
  | .integer _, _ => .error "Failed to downcast array items"
  | .float ⟨.f32⟩, .vecF32 vals => .ok (vals.map (fun v => .number v))
  | .float ⟨.f64⟩, .vecF64 vals => .ok (vals.map (fun v => .number v))
  | .float _, _ => .error "Failed to downcast array items"
  | .string _, .cstringsPtrs cstrings _ =>
    .ok (cstrings.map (fun s => .string s))
  | .string _, _ => .error "Failed to downcast array items"
  | .boolean, .vecU8 vals => .ok (vals.map (fun v => .boolean (v != 0)))
  | .boolean, _ => .error "Failed to downcast array items"
  | .gobject _, .idsPtrs ids _ => .ok (ids.map (fun id => .object id))
  | .boxed _, .idsPtrs ids _ => .ok (ids.map (fun id => .object id))
  | .gvariant _, .idsPtrs ids _ => .ok (ids.map (fun id => .object id))
  | .gobject _, _ => .error "Failed to downcast array items"
  | .boxed _, _ => .error "Failed to downcast array items"
  | .gvariant _, _ => .error "Failed to downcast array items"
  | _, _ => .error "Unsupported array item type for cif value conversion"

/-- `Value::from_cif_value` (`value.rs` lines 231-750): convert a native
call result (or out-parameter slot) to a dynamic value under its type
descriptor, threading the registry state for object registration and
recording ownership side effects (frees, reference counts, copies). -/
def from_cif_value (st : GtkThreadState) (env : NativeEnv)
    (cif_value : cif.Value) (type_ : Ty) :
    Except String (value.Value × GtkThreadState × List Effect) :=
  match type_ with
  | .null => .ok (.null, st, [])
  | .undefined => .ok (.undefined, st, [])
  | .integer _ | .float _ =>
    match cif_value with
    | .i8 v => .ok (.number v, st, [])
    | .u8 v => .ok (.number (Int.ofNat v), st, [])
    | .i16 v => .ok (.number v, st, [])
    | .u16 v => .ok (.number (Int.ofNat v), st, [])
    | .i32 v => .ok (.number v, st, [])
    | .u32 v => .ok (.number (Int.ofNat v), st, [])
    | .i64 v => .ok (.number v, st, [])
    | .u64 v => .ok (.number (Int.ofNat v), st, [])
    | .f32 v => .ok (.number v, st, [])
    | .f64 v => .ok (.number v, st, [])
    | _ => .error "Expected a number cif Value"
  | .string string_type =>
    match cif_value with
    | .ptr str_ptr =>
      if isNull str_ptr then .ok (.null, st, [])
      else
        let s := env.readCStr str_ptr
        if string_type.is_borrowed then .ok (.string s, st, [])
        else .ok (.string s, st, [Effect.gFree str_ptr])
    | _ => .error "Expected a pointer cif Value for string"
  | .boolean =>
    match cif_value with
    | .u8 v => .ok (.boolean (v != 0), st, [])
    | _ => .error "Expected a boolean cif Value"
  | .gobject gobject_type =>
    match cif_value with
    | .ptr object_ptr =>
      if isNull object_ptr then .ok (.null, st, [])
      else if gobject_type.is_borrowed then
        -- from_glib_none: takes an additional reference
        let (id, st') := ObjectId.new st (.gObject object_ptr)
        .ok (.object id, st', [Effect.gObjectRef object_ptr])
      else
        -- transfer full: sink a floating reference if any, then take as-is
        let sink_effs :=
          if env.isFloating object_ptr then [Effect.gObjectRefSink object_ptr] else []
        let (id, st') := ObjectId.new st (.gObject object_ptr)
        .ok (.object id, st', sink_effs)
    | _ => .error "Expected a pointer cif Value for GObject"
  | .boxed boxed_type =>
    match cif_value with
    | .ptr boxed_ptr =>
      if isNull boxed_ptr then .ok (.null, st, [])
      else
        let gtype := boxed_type.get_gtype
        let (bx, effs) :=
          if boxed_type.is_borrowed then Boxed.from_glib_none env gtype boxed_ptr
          else Boxed.from_glib_full gtype boxed_ptr
        let (id, st') := ObjectId.new st (.boxedObj bx)
        .ok (.object id, st', effs)
    | _ => .error "Expected a pointer cif Value for Boxed"
  | .gvariant variant_type =>
    match cif_value with
    | .ptr variant_ptr =>
      if isNull variant_ptr then .ok (.null, st, [])
      else
        let (vr, effs) :=
          if variant_type.is_borrowed then GVariant.from_glib_none variant_ptr
          else GVariant.from_glib_full variant_ptr
        let (id, st') := ObjectId.new st (.gVariant vr)
        .ok (.object id, st', effs)
    | _ => .error "Expected a pointer cif Value for GVariant"
  | .array item_type list_type is_borrowed =>
    if list_type = ListType.glist ∨ list_type = ListType.gslist then
      match cif_value with
      | .ptr list_ptr =>
        if isNull list_ptr then .ok (.array [], st, [])
        else do
          let (values, st', effs) ←
            fromGListItems env item_type (env.readGList list_ptr) st
          -- the GListGuard frees the node chain after the walk when owned
          let guard_effs := if is_borrowed then [] else [Effect.gListFree list_ptr]
          pure (value.Value.array values, st', effs ++ guard_effs)
      | _ => .error "Expected a pointer cif Value for GList or GSList"
    else
      match cif_value with
      | .ptr p =>
        if isNull p then .ok (.array [], st, [])
        else
          match item_type with
          | .string _ =>
            let values := (env.readStrv p).map (fun s => value.Value.string s)
            let effs := if is_borrowed then [] else [Effect.gStrfreev p]
            .ok (.array values, st, effs)
          | _ => .error "Unsupported null-terminated array item type"
      | .ownedPtr array_ptr => do
        let values ← fromOwnedArrayBacking item_type array_ptr.value
        pure (value.Value.array values, st, [])
      | _ => .error "Expected an owned pointer cif Value for Array"
  | .ref inner_type =>
    match cif_value with
    | .ownedPtr ref_ptr =>
      match inner_type with
      | .gobject gobject_type =>
        let actual := env.readPtrSlot ref_ptr.ptr
        if isNull actual then .ok (.null, st, [])
        else if gobject_type.is_borrowed then
          let (id, st') := ObjectId.new st (.gObject actual)
          .ok (.object id, st', [Effect.gObjectRef actual])
        else
          let (id, st') := ObjectId.new st (.gObject actual)
          .ok (.object id, st', [])
      | .boxed boxed_type =>
        let actual := env.readPtrSlot ref_ptr.ptr
        if isNull actual then .ok (.null, st, [])
        else
          let gtype := boxed_type.get_gtype
          let (bx, effs) :=
            if boxed_type.is_borrowed then Boxed.from_glib_none env gtype actual
            else Boxed.from_glib_full gtype actual
          let (id, st') := ObjectId.new st (.boxedObj bx)
          .ok (.object id, st', effs)
      | .gvariant variant_type =>
        let actual := env.readPtrSlot ref_ptr.ptr
        if isNull actual then .ok (.null, st, [])
        else
          let (vr, effs) :=
            if variant_type.is_borrowed then GVariant.from_glib_none actual
            else GVariant.from_glib_full actual
          let (id, st') := ObjectId.new st (.gVariant vr)
          .ok (.object id, st', effs)
      | .integer int_type =>
        .ok (.number (env.readIntSlot int_type ref_ptr.ptr), st, [])
      | .float float_type =>
        .ok (.number (env.readFloatSlot float_type ref_ptr.ptr), st, [])
      | _ => .error "Unsupported ref inner type for reading"
    | _ => .error "Expected an owned pointer cif Value for Ref"
  | .callback _ => .error "Unsupported type for cif value conversion"

/-- The spec's round-trip law subject: marshal a dynamic value to its native
call representation and convert the result back
(`from_native(to_native(V, T), T)`), collecting the effects of both
directions. -/
def marshalRoundTrip (st : GtkThreadState) (env : NativeEnv) (t : Ty)
    (v : value.Value) (optional : Bool) :
    Except String (value.Value × List Effect) := do
  let (c, effs) ← cifTryFromTy st env t v optional
  let (v', _, effs') ← from_cif_value st env c t
  pure (v', effs ++ effs')

/-! ## Cross-thread dispatch protocol
(`gtk_dispatch.rs`, `js_dispatch.rs`, the GTK-side wait loop of `cif.rs`
and the JS-side wait loop of `module/call.rs`) -/

/-- `gtk_dispatch::is_js_waiting`: `JS_WAIT_DEPTH > 0`. -/
def is_js_waiting (js_wait_depth : Nat) : Bool := js_wait_depth > 0

/-- `gtk_dispatch::enter_js_wait`: increment the wait-depth counter. -/
def enter_js_wait (js_wait_depth : Nat) : Nat := js_wait_depth + 1

/-- `gtk_dispatch::exit_js_wait`: decrement the wait-depth counter (the
source pairs every exit with a preceding enter, so the counter never
underflows). -/
def exit_js_wait (js_wait_depth : Nat) : Nat := js_wait_depth - 1

/-- `js_dispatch::PendingCallback` (without its one-shot result channel,
which the wait-loop models below carry as an event stream). -/
structure PendingCallback where
  callback : Nat
  args : List value.Value
  capture_result : Bool

/-- The two routes by which a callback reaches the JS thread: the
synchronous queue of `js_dispatch::QUEUE`, and the closures handed to the
Neon `Channel` (drained asynchronously by the UV event loop). -/
structure JsDispatchState where
  pending : List PendingCallback
  channel_sends : List PendingCallback

/-- `js_dispatch::queue`: push onto the synchronous queue. -/
def jsQueue (st : JsDispatchState) (cb : PendingCallback) : JsDispatchState :=
  { st with pending := st.pending ++ [cb] }

/-- `js_dispatch::send_via_channel`: schedule through the Neon channel. -/
def sendViaChannel (st : JsDispatchState) (cb : PendingCallback) : JsDispatchState :=
  { st with channel_sends := st.channel_sends ++ [cb] }

/-- The route selection of `invoke_and_wait_for_js_result`
(`cif.rs` lines 137-141): queue synchronously when the JS thread is waiting,
otherwise send via the channel. -/
def invokeDispatch (js_wait_depth : Nat) (st : JsDispatchState)
    (cb : PendingCallback) : JsDispatchState :=
  if is_js_waiting js_wait_depth then jsQueue st cb else sendViaChannel st cb

/-- One `try_recv` poll outcome of an mpsc receiver. -/
inductive TryRecvOutcome (α : Type) where
  | ok (r : α)
  | empty
  | disconnected

/-- Outcome of the GTK-side wait loop. -/
inductive GtkWaitOutcome (α : Type) where
  | result (r : α)
  | fatal (msg : String)
  | spinning

/-- `wait_for_js_result` (`cif.rs` lines 104-124) over a finite prefix of
poll outcomes: a received value ends the loop; an empty poll runs
`gtk_dispatch::dispatch_pending()` (draining the GTK task queue) and yields;
a disconnect is fatal.  The second component is the GTK task queue after the
loop. -/
def wait_for_js_result {α : Type} (error_message : String) :
    List (TryRecvOutcome α) → List Nat → GtkWaitOutcome α × List Nat
  | [], gtk_queue => (.spinning, gtk_queue)
  | .ok r :: _, gtk_queue => (.result r, gtk_queue)
  | .empty :: rest, _ => wait_for_js_result error_message rest []
  | .disconnected :: _, gtk_queue => (.fatal error_message, gtk_queue)

/-- `invoke_and_wait_for_js_result` (`cif.rs` lines 126-144): route the
pending callback by the current wait depth, then spin on the result
receiver. -/
def invoke_and_wait_for_js_result {α : Type} (js_wait_depth : Nat)
    (st : JsDispatchState) (cb : PendingCallback) (error_message : String)
    (events : List (TryRecvOutcome α)) (gtk_queue : List Nat) :
    JsDispatchState × GtkWaitOutcome α × List Nat :=
  let st' := invokeDispatch js_wait_depth st cb
  let (outcome, q) := wait_for_js_result error_message events gtk_queue
  (st', outcome, q)

/-- Outcome of the JS-side wait loop. -/
inductive JsWaitOutcome (α : Type) where
  | done (r : Except String α)
  | spinning

/-- `wait_for_result` (`module/call.rs` lines 39-60) over a finite prefix of
poll outcomes.  Every iteration first runs `js_dispatch::process_pending`
(draining the synchronous callback queue), then polls: a received value
breaks the loop, disconnection returns the explicit error; in both cases
`exit_js_wait` decrements the wait depth.  Returns the outcome, the final
wait depth, and the remaining synchronous queue. -/
def wait_for_result {α : Type} (js_wait_depth : Nat) :
    List (TryRecvOutcome (Except String α)) → List PendingCallback →
    JsWaitOutcome α × Nat × List PendingCallback
  | [], pending => (.spinning, js_wait_depth, pending)
  | .ok r :: _, _ => (.done r, exit_js_wait js_wait_depth, [])
  | .empty :: rest, _ => wait_for_result js_wait_depth rest []
  | .disconnected :: _, _ =>
    (.done (.error "GTK thread disconnected"), exit_js_wait js_wait_depth, [])

/-- The wait phase of `call`/`batch_call` (`module/call.rs`): the caller
increments the wait depth with `enter_js_wait` before scheduling the task,
then enters `wait_for_result`. -/
def callWait {α : Type} (js_wait_depth : Nat)
    (events : List (TryRecvOutcome (Except String α)))
    (pending : List PendingCallback) :
    JsWaitOutcome α × Nat × List PendingCallback :=
  wait_for_result (enter_js_wait js_wait_depth) events pending

/-! ## Batch invocation (`module/call.rs` lines 251-305) -/

/-- `BatchCallDescriptor`. -/
structure BatchCallDescriptor where
  library_name : String
  symbol_name : String
  args : List Arg

/-- `handle_batch_calls` (`module/call.rs` lines 294-305): run `handle_call`
on each descriptor in order with the void (`Undefined`) return type,
stopping at the first error.  `handle_call` performs the native call, so it
is passed in as an oracle from descriptor data to error-or-effects; the
effects of the calls that were executed are accumulated in order. -/
def handle_batch_calls
    (handleCall : String → String → List Arg → Ty → Except String (List Effect)) :
    List BatchCallDescriptor → Except String Unit × List Effect
  | [] => (.ok (), [])
  | d :: rest =>
    match handleCall d.library_name d.symbol_name d.args Ty.undefined with
    | .error e => (.error e, [])
    | .ok effs =>
      let (r, effs2) := handle_batch_calls handleCall rest
      (r, effs ++ effs2)

/-! ## Concrete fixtures used by witnesses and counterexamples -/

/-- A concrete native-memory oracle. -/
def envFix : NativeEnv where
  addrOf := fun _ => 100
  readCStr := fun _ => "hello"
  readGList := fun _ => []
  readStrv := fun _ => []
  isFloating := fun _ => false
  boxedCopyAddr := fun p => p + 1000
  readPtrSlot := fun _ => 0
  readIntSlot := fun _ _ => 0
  readFloatSlot := fun _ _ => 0

/-- A registry state holding one boxed object with address 5 under id 1. -/
def stBoxedFix : GtkThreadState :=
  { object_map := [(1, .boxedObj { ptr := 5, type_ := none, is_owned := true })],
    next_object_id := 2, libraries := [] }

/-- A loader whose two alternatives fail with distinct errors. -/
def loaderFixA : String → Except String Nat := fun n =>
  if n = "liba" then .error "liba missing" else .error "libb broken"

/-- Like `loaderFixA` but with a different error for the first
alternative. -/
def loaderFixB : String → Except String Nat := fun n =>
  if n = "liba" then .error "liba corrupted" else .error "libb broken"

/-- A loader whose first alternative fails and second succeeds. -/
def loaderFixC : String → Except String Nat := fun n =>
  if n = "liba" then .error "liba missing" else .ok 7

/-- A batch-call oracle: the call to symbol "ok" succeeds with one
observable effect, the call to symbol "boom" fails. -/
def handleCallFix : String → String → List Arg → Ty → Except String (List Effect) :=
  fun _ symbol _ _ =>
    if symbol = "boom" then .error "boom" else .ok [Effect.gFree 1]

/-- Two-element batch: a succeeding call followed by a failing one. -/
def batchFix : List BatchCallDescriptor :=
  [{ library_name := "libgtk", symbol_name := "ok", args := [] },
   { library_name := "libgtk", symbol_name := "boom", args := [] }]

/-- Every key currently in the registry is below the id counter.  This holds
for the default state and is preserved by `ObjectId.new` and
`ObjectId.remove`, so counter values are never reused. -/
def RegistryInv (st : GtkThreadState) : Prop :=
  ∀ p ∈ st.object_map, p.1 < st.next_object_id

/-! ## Lemmas about the association-map helpers -/

theorem mapLookup_insert_self {α : Type} (m : List (Nat × α)) (k : Nat) (v : α) :
    mapLookup (mapInsert m k v) k = some v := by
  simp [mapInsert, mapLookup]

theorem mapLookup_filter_ne {α : Type} (m : List (Nat × α)) (k k' : Nat)
    (h : k' ≠ k) :
    mapLookup (m.filter (fun p => p.1 ≠ k)) k' = mapLookup m k' := by
  induction m with
  | nil => rfl
  | cons p rest ih =>
    obtain ⟨a, b⟩ := p
    by_cases hp : a = k
    · rw [List.filter_cons_of_neg (by simp [hp])]
      rw [ih]
      have ha : ¬ a = k' := by omega
      simp [mapLookup, ha]
    · rw [List.filter_cons_of_pos (by simp [hp])]
      by_cases hq : a = k'
      · simp [mapLookup, hq]
      · simp only [mapLookup, if_neg hq]
        exact ih

theorem mapLookup_insert_ne {α : Type} (m : List (Nat × α)) (k k' : Nat) (v : α)
    (h : k' ≠ k) : mapLookup (mapInsert m k v) k' = mapLookup m k' := by
  have hk : ¬ k = k' := by omega
  simp only [mapInsert, mapLookup, if_neg hk]
  exact mapLookup_filter_ne m k k' h

theorem mapLookup_remove_self {α : Type} (m : List (Nat × α)) (k : Nat) :
    mapLookup (mapRemove m k) k = none := by
  induction m with
  | nil => rfl
  | cons p rest ih =>
    obtain ⟨a, b⟩ := p
    simp only [mapRemove] at ih ⊢
    by_cases hp : a = k
    · rw [List.filter_cons_of_neg (by simp [hp])]
      exact ih
    · rw [List.filter_cons_of_pos (by simp [hp])]
      simp only [mapLookup, if_neg hp]
      exact ih

theorem mapLookup_remove_ne {α : Type} (m : List (Nat × α)) (k k' : Nat)
    (h : k' ≠ k) : mapLookup (mapRemove m k) k' = mapLookup m k' :=
  mapLookup_filter_ne m k k' h

theorem mapLookup_none_of_bound {α : Type} (m : List (Nat × α)) (n : Nat)
    (h : ∀ p ∈ m, p.1 < n) : mapLookup m n = none := by
  induction m with
  | nil => rfl
  | cons p rest ih =>
    obtain ⟨a, b⟩ := p
    have hp : a < n := h (a, b) (by simp)
    have ha : ¬ a = n := by omega
    simp only [mapLookup, if_neg ha]
    exact ih (fun q hq => h q (by simp [hq]))

/-! ## Claim theorems -/

/-- Claim C3: resolving the identity returned by registering an object
yields the object's native address; identities come from a monotonically
increasing per-thread counter and (under the counter invariant) are fresh,
the invariant being preserved by registration and removal; after removal,
resolution yields `none` for that identity and is unchanged for every other
identity. -/
theorem C3_registry :
    (∀ (st : GtkThreadState) (obj : Object),
      ObjectId.as_ptr (ObjectId.new st obj).2 (ObjectId.new st obj).1 =
        some obj.addr) ∧
    (∀ (st : GtkThreadState) (obj : Object),
      (ObjectId.new st obj).1 = st.next_object_id ∧
      (ObjectId.new st obj).2.next_object_id = st.next_object_id + 1) ∧
    (∀ (st : GtkThreadState) (obj : Object), RegistryInv st →
      mapLookup st.object_map (ObjectId.new st obj).1 = none) ∧
    (∀ (st : GtkThreadState) (obj : Object), RegistryInv st →
      RegistryInv (ObjectId.new st obj).2) ∧
    (∀ (st : GtkThreadState) (id : Nat), RegistryInv st →
      RegistryInv (ObjectId.remove st id)) ∧
    (∀ (st : GtkThreadState) (id : Nat),
      ObjectId.as_ptr (ObjectId.remove st id) id = none) ∧
    (∀ (st : GtkThreadState) (id id' : Nat), id' ≠ id →
      ObjectId.as_ptr (ObjectId.remove st id) id' = ObjectId.as_ptr st id') := by
  refine ⟨?_, ?_, ?_, ?_, ?_, ?_, ?_⟩
  · intro st obj
    simp [ObjectId.new, ObjectId.as_ptr, mapLookup_insert_self]
  · intro st obj
    exact ⟨rfl, rfl⟩
  · intro st obj hinv
    exact mapLookup_none_of_bound _ _ hinv
  · intro st obj hinv
    intro p hp
    simp only [ObjectId.new, mapInsert] at hp
    simp only [ObjectId.new]
    rcases List.mem_cons.mp hp with hp | hp
    · subst hp
      omega
    · have := hinv p (List.mem_of_mem_filter hp)
      omega
  · intro st id hinv p hp
    exact hinv p (List.mem_of_mem_filter hp)
  · intro st id
    simp [ObjectId.remove, ObjectId.as_ptr, mapLookup_remove_self]
  · intro st id id' h
    simp [ObjectId.remove, ObjectId.as_ptr, mapLookup_remove_ne _ _ _ h]

/-- Witness for C3: a concrete run from the default state.  Register an
object at address 7, observe id 1 resolving to 7, register another, remove
the first, observe `none` for it and address 9 for the second. -/
theorem C3_registry_witness :
    (ObjectId.as_ptr (ObjectId.new GtkThreadState.default (.gObject 7)).2 1 =
      some 7) ∧
    RegistryInv (ObjectId.new GtkThreadState.default (.gObject 7)).2 ∧
    (ObjectId.as_ptr
      (ObjectId.remove
        (ObjectId.new (ObjectId.new GtkThreadState.default (.gObject 7)).2
          (.gObject 9)).2 1) 1 = none) ∧
    (ObjectId.as_ptr
      (ObjectId.remove
        (ObjectId.new (ObjectId.new GtkThreadState.default (.gObject 7)).2
          (.gObject 9)).2 1) 2 = some 9) := by
  refine ⟨C3_registry.1 GtkThreadState.default (.gObject 7), ?_, ?_, ?_⟩
  · exact C3_registry.2.2.2.1 GtkThreadState.default (.gObject 7)
      (fun p hp => by simp [GtkThreadState.default] at hp)
  · exact C3_registry.2.2.2.2.2.1 _ 1
  · exact (C3_registry.2.2.2.2.2.2 _ 1 2 (by decide)).trans (by rfl)

/-- Claim C9: the integer-width parser of `types/integer.rs` accepts widths
8, 32 and 64 but rejects width 16 with "Invalid integer size", although the
spec (and the `IntegerSize` consumers elsewhere in the crate, as well as the
`types.rs` doc comment listing i16/u16) include the 16-bit width. -/
theorem C9_integer_width_parse :
    IntegerSize.from_js_value 8 = .ok .s8 ∧
    IntegerSize.from_js_value 32 = .ok .s32 ∧
    IntegerSize.from_js_value 64 = .ok .s64 ∧
    IntegerSize.from_js_value 16 = .error "Invalid integer size" ∧
    IntegerSize.from_js_value 24 = .error "Invalid integer size" :=
  ⟨rfl, rfl, rfl, rfl, rfl⟩

/-- Claim C10: converting a null native pointer yields `Null` for every
pointer-typed return descriptor (string, gobject, boxed, gvariant) and an
empty array for every array descriptor, with no error and no free,
reference increment, or copy. -/
theorem C10_null_pointer_results :
    ∀ (st : GtkThreadState) (env : NativeEnv),
      (∀ t : StringType, from_cif_value st env (.ptr 0) (.string t) =
        .ok (.null, st, [])) ∧
      (∀ t : GObjectType, from_cif_value st env (.ptr 0) (.gobject t) =
        .ok (.null, st, [])) ∧
      (∀ t : BoxedType, from_cif_value st env (.ptr 0) (.boxed t) =
        .ok (.null, st, [])) ∧
      (∀ t : GVariantType, from_cif_value st env (.ptr 0) (.gvariant t) =
        .ok (.null, st, [])) ∧
      (∀ (item : Ty) (lt : ListType) (b : Bool),
        from_cif_value st env (.ptr 0) (.array item lt b) =
          .ok (.array [], st, [])) := by
  intro st env
  refine ⟨fun t => rfl, fun t => rfl, fun t => rfl, fun t => rfl,
    fun item lt b => ?_⟩
  cases lt <;> rfl

/-- Claim C1: a native-to-JS callback invocation is pushed onto the
synchronous queue when the waiting-depth counter is nonzero, and dispatched
through the asynchronous channel when it is zero (leaving the other route
untouched in each case); in both cases the GTK-side wait loop polls,
draining its own pending task queue at every empty poll, until the result
arrives. -/
theorem C1_callback_dispatch_routing :
    (∀ (d : Nat) (st : JsDispatchState) (cb : PendingCallback), d ≠ 0 →
      invokeDispatch d st cb = { st with pending := st.pending ++ [cb] }) ∧
    (∀ (st : JsDispatchState) (cb : PendingCallback),
      invokeDispatch 0 st cb =
        { st with channel_sends := st.channel_sends ++ [cb] }) ∧
    (∀ (α : Type) (msg : String) (r : α) (k : Nat)
      (rest : List (TryRecvOutcome α)) (q : List Nat),
      wait_for_js_result msg (List.replicate k .empty ++ .ok r :: rest) q =
        (.result r, if k = 0 then q else [])) := by
  refine ⟨?_, ?_, ?_⟩
  · intro d st cb h
    have : is_js_waiting d = true := by
      simp [is_js_waiting]
      omega
    simp [invokeDispatch, this, jsQueue]
  · intro st cb
    simp [invokeDispatch, is_js_waiting, sendViaChannel]
  · intro α msg r k rest q
    induction k generalizing q with
    | zero => rfl
    | succ k ih =>
      rw [List.replicate_succ, List.cons_append]
      rw [show wait_for_js_result msg
          (.empty :: (List.replicate k .empty ++ .ok r :: rest)) q =
          wait_for_js_result msg (List.replicate k .empty ++ .ok r :: rest) []
        from rfl]
      rw [ih []]
      simp

/-- Witness for C1: a concrete reentrant invocation at depth 1 lands on the
synchronous queue. -/
theorem C1_callback_dispatch_routing_witness :
    invokeDispatch 1 { pending := [], channel_sends := [] }
        { callback := 5, args := [], capture_result := true } =
      { pending := [{ callback := 5, args := [], capture_result := true }],
        channel_sends := [] } :=
  C1_callback_dispatch_routing.1 1
    { pending := [], channel_sends := [] }
    { callback := 5, args := [], capture_result := true } (by decide)

/-- Claim C6: if the GTK-side result channel disconnects while the JS wait
loop of `module/call.rs` is polling, the wait returns the explicit error
"GTK thread disconnected" instead of hanging, and the waiting-depth counter
is decremented back to its pre-call value exactly as on the success path. -/
theorem C6_disconnect_error_depth_restored :
    ∀ (α : Type) (d k : Nat) (q : List PendingCallback)
      (rest : List (TryRecvOutcome (Except String α))) (r : Except String α),
      callWait d (List.replicate k .empty ++ .disconnected :: rest) q =
        (.done (.error "GTK thread disconnected"), d, []) ∧
      callWait (α := α) d (List.replicate k .empty ++ .ok r :: rest) q =
        (.done r, d, []) := by
  intro α d k q rest r
  induction k generalizing q with
  | zero => exact ⟨rfl, rfl⟩
  | succ k ih =>
    constructor
    · rw [callWait, List.replicate_succ, List.cons_append]
      rw [show wait_for_result (enter_js_wait d)
          (.empty :: (List.replicate k .empty ++ .disconnected :: rest)) q =
          wait_for_result (enter_js_wait d)
            (List.replicate k .empty ++ .disconnected :: rest) []
        from rfl]
      exact (ih []).1
    · rw [callWait, List.replicate_succ, List.cons_append]
      rw [show wait_for_result (enter_js_wait d)
          (.empty :: (List.replicate k .empty ++ .ok r :: rest)) q =
          wait_for_result (enter_js_wait d)
            (List.replicate k .empty ++ .ok r :: rest) []
        from rfl]
      exact (ih []).2

/-- Claim C8, as stated, is false: the batch stops at the first failing call
but the effects of the calls before it have already happened and are not
rolled back.  Concretely, a batch of a succeeding call (with one observable
effect) followed by a failing call reports the error while the first call's
effect remains observable. -/
theorem C8_batch_counterexample :
    handle_batch_calls handleCallFix batchFix =
      (.error "boom", [Effect.gFree 1]) := rfl

/-- Claim C8 (amended): a batch executes its calls strictly sequentially in
the order given, each with the void return type; when every call succeeds
the batch succeeds with the calls' effects in order, and when a call fails
the batch stops there, reports that single error, and the effects of the
preceding calls remain (they are not rolled back) while no later call
executes. -/
theorem C8_batch_sequential_first_error :
    (∀ (hc : String → String → List Arg → Ty → Except String (List Effect))
      (f : BatchCallDescriptor → List Effect) (ds : List BatchCallDescriptor),
      (∀ x ∈ ds, hc x.library_name x.symbol_name x.args Ty.undefined = .ok (f x)) →
      handle_batch_calls hc ds = (.ok (), (ds.map f).flatten)) ∧
    (∀ (hc : String → String → List Arg → Ty → Except String (List Effect))
      (f : BatchCallDescriptor → List Effect)
      (pre : List BatchCallDescriptor) (d : BatchCallDescriptor)
      (post : List BatchCallDescriptor) (e : String),
      (∀ x ∈ pre, hc x.library_name x.symbol_name x.args Ty.undefined = .ok (f x)) →
      hc d.library_name d.symbol_name d.args Ty.undefined = .error e →
      handle_batch_calls hc (pre ++ d :: post) = (.error e, (pre.map f).flatten)) := by
  constructor
  · intro hc f ds h
    induction ds with
    | nil => rfl
    | cons x rest ih =>
      have hx := h x (by simp)
      have hrest := ih (fun y hy => h y (by simp [hy]))
      simp [handle_batch_calls, hx, hrest]
  · intro hc f pre d post e hpre hd
    induction pre with
    | nil =>
      simp [handle_batch_calls, hd]
    | cons x rest ih =>
      have hx := hpre x (by simp)
      have hrest := ih (fun y hy => hpre y (by simp [hy]))
      simp [handle_batch_calls, hx, hrest]

/-- Witness for C8 (amended): a one-call all-success batch accumulates that
call's effect. -/
theorem C8_batch_witness :
    handle_batch_calls handleCallFix
        [{ library_name := "libgtk", symbol_name := "ok", args := [] }] =
      (.ok (), [Effect.gFree 1]) := by
  have h := C8_batch_sequential_first_error.1 handleCallFix
    (fun _ => [Effect.gFree 1])
    [{ library_name := "libgtk", symbol_name := "ok", args := [] }]
    (by
      intro x hx
      rw [List.mem_singleton] at hx
      subst hx
      rfl)
  simpa using h

/-- The alternatives loop returns the first library that loads, regardless
of the accumulated error. -/
theorem tryAlternatives_first_ok (loader : String → Except String Nat)
    (pre : List String) (nm : String) (post : List String) (lib : Nat)
    (hpre : ∀ x ∈ pre, ∃ e, loader x = .error e) (hok : loader nm = .ok lib) :
    ∀ acc, tryAlternatives loader (pre ++ nm :: post) acc = .inl lib := by
  induction pre with
  | nil =>
    intro acc
    simp [tryAlternatives, hok]
  | cons x rest ih =>
    intro acc
    obtain ⟨e, he⟩ := hpre x (by simp)
    have := ih (fun y hy => hpre y (by simp [hy]))
    simp [tryAlternatives, he, this]

/-- When every alternative fails, the loop keeps only the error of the last
alternative. -/
theorem tryAlternatives_all_fail (loader : String → Except String Nat)
    (pre : List String) (nm : String) (e : String)
    (hpre : ∀ x ∈ pre, ∃ e', loader x = .error e') (hlast : loader nm = .error e) :
    ∀ acc, tryAlternatives loader (pre ++ [nm]) acc = .inr (some e) := by
  induction pre with
  | nil =>
    intro acc
    simp [tryAlternatives, hlast]
  | cons x rest ih =>
    intro acc
    obtain ⟨e', he⟩ := hpre x (by simp)
    have := ih (fun y hy => hpre y (by simp [hy]))
    simp [tryAlternatives, he, this]

/-- Claim C7, as stated, is false in its aggregation clause: two loaders
whose first alternative fails with different errors produce the same error
result (which therefore cannot mention the first alternative's failure);
the single message carries only the full name and the last failure. -/
theorem C7_library_error_counterexample :
    GtkThreadState.get_library loaderFixA GtkThreadState.default "liba,libb" =
      GtkThreadState.get_library loaderFixB GtkThreadState.default "liba,libb" ∧
    (GtkThreadState.get_library loaderFixA GtkThreadState.default
        "liba,libb").1 =
      .error "Failed to load library liba,libb: libb broken" ∧
    loaderFixA "liba" ≠ loaderFixB "liba" := by
  refine ⟨rfl, rfl, ?_⟩
  intro h
  simp only [loaderFixA, loaderFixB, if_pos rfl] at h
  injection h with h'
  exact absurd h' (by decide)

/-- Claim C7 (amended): a cached name is returned without loading; otherwise
the comma-separated alternatives are tried in order, the first that loads
wins and is cached under the full name; when every alternative fails, a
single error is returned naming the full comma-separated string and the
last alternative's failure (earlier alternatives' errors are discarded). -/
theorem C7_library_resolution :
    (∀ (loader : String → Except String Nat) (st : GtkThreadState)
      (name : String) (lib : Nat),
      smapLookup st.libraries name = some lib →
      GtkThreadState.get_library loader st name = (.ok lib, st)) ∧
    (∀ (loader : String → Except String Nat) (st : GtkThreadState)
      (name : String) (pre : List String) (nm : String) (post : List String)
      (lib : Nat),
      smapLookup st.libraries name = none →
      splitOnComma name = pre ++ nm :: post →
      (∀ x ∈ pre, ∃ e, loader x = .error e) →
      loader nm = .ok lib →
      GtkThreadState.get_library loader st name =
        (.ok lib, { st with libraries := smapInsert st.libraries name lib })) ∧
    (∀ (loader : String → Except String Nat) (st : GtkThreadState)
      (name : String) (pre : List String) (nm : String) (e : String),
      smapLookup st.libraries name = none →
      splitOnComma name = pre ++ [nm] →
      (∀ x ∈ pre, ∃ e', loader x = .error e') →
      loader nm = .error e →
      GtkThreadState.get_library loader st name =
        (.error ("Failed to load library " ++ name ++ ": " ++ e), st)) := by
  refine ⟨?_, ?_, ?_⟩
  · intro loader st name lib hhit
    simp [GtkThreadState.get_library, hhit]
  · intro loader st name pre nm post lib hmiss hsplit hpre hok
    have halt := tryAlternatives_first_ok loader pre nm post lib hpre hok none
    simp [GtkThreadState.get_library, hmiss, hsplit, halt]
  · intro loader st name pre nm e hmiss hsplit hpre hlast
    have halt := tryAlternatives_all_fail loader pre nm e hpre hlast none
    simp [GtkThreadState.get_library, hmiss, hsplit, halt]

/-- Witness for C7 (amended): the loader whose first alternative fails and
second succeeds resolves to the second library and caches it under the full
comma-separated name. -/
theorem C7_library_resolution_witness :
    GtkThreadState.get_library loaderFixC GtkThreadState.default "liba,libb" =
      (.ok 7, { object_map := [], next_object_id := 1,
                libraries := [("liba,libb", 7)] }) := by
  have h := C7_library_resolution.2.1 loaderFixC GtkThreadState.default
    "liba,libb" ["liba"] "libb" [] 7 rfl rfl
    (by
      intro x hx
      rw [List.mem_singleton] at hx
      subst hx
      exact ⟨"liba missing", rfl⟩)
    rfl
  simpa [GtkThreadState.default, smapInsert] using h

/-- Claim C4 (amended): marshaling a gobject argument with `borrowed=false`
that resolves to a non-null pointer performs exactly one `g_object_ref`; a
boxed argument with `borrowed=false`, non-null pointer and a resolvable
GType performs exactly one `g_boxed_copy` and hands the copy to the call;
with `borrowed=true` or a null value no increment or copy occurs; and when
the boxed GType cannot be resolved the pointer is passed unchanged with no
copy (the amendment the source forces). -/
theorem C4_argument_ownership :
    (∀ (st : GtkThreadState) (env : NativeEnv) (id p : Nat) (opt : Bool),
      ObjectId.as_ptr st id = some p → p ≠ 0 →
      cifTryFromTy st env (.gobject ⟨false⟩) (.object id) opt =
        .ok (.ptr p, [Effect.gObjectRef p])) ∧
    (∀ (st : GtkThreadState) (env : NativeEnv) (id p : Nat) (opt : Bool),
      ObjectId.as_ptr st id = some p →
      cifTryFromTy st env (.gobject ⟨true⟩) (.object id) opt =
        .ok (.ptr p, [])) ∧
    (∀ (st : GtkThreadState) (env : NativeEnv) (b : Bool) (opt : Bool),
      cifTryFromTy st env (.gobject ⟨b⟩) .null opt = .ok (.ptr 0, [])) ∧
    (∀ (st : GtkThreadState) (env : NativeEnv) (bt : BoxedType)
      (id p g : Nat) (opt : Bool),
      ObjectId.as_ptr st id = some p → p ≠ 0 →
      bt.is_borrowed = false → bt.gtype = some g →
      cifTryFromTy st env (.boxed bt) (.object id) opt =
        .ok (.ptr (env.boxedCopyAddr p),
             [Effect.gBoxedCopy g p (env.boxedCopyAddr p)])) ∧
    (∀ (st : GtkThreadState) (env : NativeEnv) (bt : BoxedType)
      (id p : Nat) (opt : Bool),
      ObjectId.as_ptr st id = some p → bt.is_borrowed = true →
      cifTryFromTy st env (.boxed bt) (.object id) opt = .ok (.ptr p, [])) ∧
    (∀ (st : GtkThreadState) (env : NativeEnv) (bt : BoxedType) (opt : Bool),
      cifTryFromTy st env (.boxed bt) .null opt = .ok (.ptr 0, [])) ∧
    (∀ (st : GtkThreadState) (env : NativeEnv) (bt : BoxedType)
      (id p : Nat) (opt : Bool),
      ObjectId.as_ptr st id = some p → bt.gtype = none →
      cifTryFromTy st env (.boxed bt) (.object id) opt = .ok (.ptr p, [])) := by
  refine ⟨?_, ?_, ?_, ?_, ?_, ?_, ?_⟩
  · intro st env id p opt h hp
    simp [cifTryFromTy, h, gobjectArgResult, isNull, hp]
  · intro st env id p opt h
    simp [cifTryFromTy, h, gobjectArgResult, isNull]
  · intro st env b opt
    simp [cifTryFromTy, gobjectArgResult, isNull]
  · intro st env bt id p g opt h hp hb hg
    simp [cifTryFromTy, h, boxedArgResult, BoxedType.get_gtype, isNull, hp, hb, hg]
  · intro st env bt id p opt h hb
    simp [cifTryFromTy, h, boxedArgResult, isNull, hb]
  · intro st env bt opt
    simp [cifTryFromTy, boxedArgResult, isNull]
  · intro st env bt id p opt h hg
    by_cases hp : p = 0
    · subst hp
      simp [cifTryFromTy, h, boxedArgResult, isNull]
    · simp [cifTryFromTy, h, boxedArgResult, BoxedType.get_gtype, isNull, hp, hg]

/-- Witness for C4: a transfer-full gobject argument resolving to address 7
is marshaled with exactly one reference increment. -/
theorem C4_argument_ownership_witness :
    cifTryFromTy (ObjectId.new GtkThreadState.default (.gObject 7)).2 envFix
        (.gobject ⟨false⟩) (.object 1) false =
      .ok (.ptr 7, [Effect.gObjectRef 7]) :=
  C4_argument_ownership.1 (ObjectId.new GtkThreadState.default (.gObject 7)).2
    envFix 1 7 false (by rfl) (by decide)

/-- Claim C4, as stated, is false for boxed arguments whose GType cannot be
resolved: `borrowed=false` with a non-null pointer (address 5, id 1 in
`stBoxedFix`) performs no copy and passes the pointer unchanged. -/
theorem C4_argument_ownership_counterexample :
    cifTryFromTy stBoxedFix envFix
        (.boxed { is_borrowed := false, type_ := "GdkRGBA", lib := none,
                  gtype := none })
        (.object 1) false = .ok (.ptr 5, []) := rfl

/-- Claim C5 (amended): converting a native return value, an owned
(`borrowed=false`) gobject/boxed/gvariant result is taken as-is (no
`g_object_ref`, no copy; only a floating gobject reference is sunk), while a
borrowed result acquires its own reference or copy — for boxed results only
when the GType is resolvable (the amendment the source forces); an owned
string result is freed with `g_free` after its contents are copied and a
borrowed one is not freed. -/
theorem C5_return_ownership :
    (∀ (st : GtkThreadState) (env : NativeEnv) (p : Nat), p ≠ 0 →
      from_cif_value st env (.ptr p) (.string ⟨false⟩) =
        .ok (.string (env.readCStr p), st, [Effect.gFree p]) ∧
      from_cif_value st env (.ptr p) (.string ⟨true⟩) =
        .ok (.string (env.readCStr p), st, [])) ∧
    (∀ (st : GtkThreadState) (env : NativeEnv) (p : Nat), p ≠ 0 →
      from_cif_value st env (.ptr p) (.gobject ⟨false⟩) =
        .ok (.object st.next_object_id, (ObjectId.new st (.gObject p)).2,
             if env.isFloating p then [Effect.gObjectRefSink p] else []) ∧
      from_cif_value st env (.ptr p) (.gobject ⟨true⟩) =
        .ok (.object st.next_object_id, (ObjectId.new st (.gObject p)).2,
             [Effect.gObjectRef p])) ∧
    (∀ (st : GtkThreadState) (env : NativeEnv) (bt : BoxedType) (p : Nat),
      p ≠ 0 → bt.is_borrowed = false →
      from_cif_value st env (.ptr p) (.boxed bt) =
        .ok (.object st.next_object_id,
             (ObjectId.new st (.boxedObj ⟨p, bt.gtype, true⟩)).2, [])) ∧
    (∀ (st : GtkThreadState) (env : NativeEnv) (bt : BoxedType) (p g : Nat),
      p ≠ 0 → bt.is_borrowed = true → bt.gtype = some g →
      from_cif_value st env (.ptr p) (.boxed bt) =
        .ok (.object st.next_object_id,
             (ObjectId.new st
               (.boxedObj ⟨env.boxedCopyAddr p, some g, true⟩)).2,
             [Effect.gBoxedCopy g p (env.boxedCopyAddr p)])) ∧
    (∀ (st : GtkThreadState) (env : NativeEnv) (p : Nat), p ≠ 0 →
      from_cif_value st env (.ptr p) (.gvariant ⟨false⟩) =
        .ok (.object st.next_object_id,
             (ObjectId.new st (.gVariant ⟨p, true⟩)).2, []) ∧
      from_cif_value st env (.ptr p) (.gvariant ⟨true⟩) =
        .ok (.object st.next_object_id,
             (ObjectId.new st (.gVariant ⟨p, true⟩)).2,
             [Effect.gVariantRefSink p])) := by
  refine ⟨?_, ?_, ?_, ?_, ?_⟩
  · intro st env p hp
    constructor <;> simp [from_cif_value, isNull, hp]
  · intro st env p hp
    constructor <;> simp [from_cif_value, isNull, hp, ObjectId.new]
  · intro st env bt p hp hb
    simp [from_cif_value, isNull, hp, hb, Boxed.from_glib_full,
      BoxedType.get_gtype, ObjectId.new]
  · intro st env bt p g hp hb hg
    simp [from_cif_value, isNull, hp, hb, hg, Boxed.from_glib_none,
      BoxedType.get_gtype, ObjectId.new]
  · intro st env p hp
    constructor <;>
      simp [from_cif_value, isNull, hp, GVariant.from_glib_full,
        GVariant.from_glib_none, ObjectId.new]

/-- Witness for C5: an owned gobject return at non-floating address 7 is
registered without any reference increment. -/
theorem C5_return_ownership_witness :
    from_cif_value GtkThreadState.default envFix (.ptr 7) (.gobject ⟨false⟩) =
      .ok (.object 1,
           (ObjectId.new GtkThreadState.default (.gObject 7)).2, []) := by
  have h := (C5_return_ownership.2.1 GtkThreadState.default envFix 7
    (by decide)).1
  simpa [envFix, GtkThreadState.default] using h

/-- Claim C5, as stated, is false for borrowed boxed results whose GType
cannot be resolved: `borrowed=true` at address 5 produces no copy and no
reference increment (the wrapper takes the pointer, unowned). -/
theorem C5_return_ownership_counterexample :
    from_cif_value GtkThreadState.default envFix (.ptr 5)
        (.boxed { is_borrowed := true, type_ := "GdkRGBA", lib := none,
                  gtype := none }) =
      .ok (.object 1,
           { object_map := [(1, .boxedObj { ptr := 5, type_ := none,
                                            is_owned := false })],
             next_object_id := 2, libraries := [] },
           []) := rfl

/-- The saturating cast into an unsigned integer type is nonnegative, so its
`Int.toNat` round trip is lossless. -/
theorem satCast_unsigned_toNat (sz : IntegerSize) (n : Int) :
    (((satCast ⟨sz, .unsigned⟩ n).toNat : Nat) : Int) =
      satCast ⟨sz, .unsigned⟩ n := by
  have h0 : 0 ≤ satCast ⟨sz, .unsigned⟩ n := by
    cases sz <;> exact le_max_left _ _
  exact Int.toNat_of_nonneg h0

/-- The `f64 as f32` cast is the identity on integers of magnitude below
`2 ^ 24` (they are exactly representable in `f32`). -/
theorem f32Cast_eq_self {n : Int} (h : n.natAbs < 2 ^ 24) : f32Cast n = n := by
  simp only [f32Cast, roundSigNat, if_pos h]
  split <;> omega

/-- Claim C2: for every scalar descriptor (any integer width/signedness,
float 32/64, boolean) and compatible value in the integral subdomain of
`f64`, the round trip `from_native(to_native(V, T), T)` is the identity,
except that a value outside an integer type's range comes back as its
saturating narrowing cast, and a value not representable in `f32` comes
back rounded to the nearest `f32`; no side effects occur. -/
theorem C2_scalar_round_trip :
    (∀ (st : GtkThreadState) (env : NativeEnv) (t : IntegerType) (n : Int)
      (opt : Bool), n.natAbs ≤ 2 ^ 53 →
      marshalRoundTrip st env (.integer t) (.number n) opt =
        .ok (.number (satCast t n), []) ∧
      (intMin t.size t.sign ≤ n → n ≤ intMax t.size t.sign →
        satCast t n = n)) ∧
    (∀ (st : GtkThreadState) (env : NativeEnv) (b : Bool) (opt : Bool),
      marshalRoundTrip st env .boolean (.boolean b) opt =
        .ok (.boolean b, [])) ∧
    (∀ (st : GtkThreadState) (env : NativeEnv) (n : Int) (opt : Bool),
      marshalRoundTrip st env (.float ⟨.f64⟩) (.number n) opt =
        .ok (.number n, [])) ∧
    (∀ (st : GtkThreadState) (env : NativeEnv) (n : Int) (opt : Bool),
      marshalRoundTrip st env (.float ⟨.f32⟩) (.number n) opt =
        .ok (.number (f32Cast n), []) ∧
      (n.natAbs < 2 ^ 24 → f32Cast n = n)) := by
  refine ⟨?_, ?_, ?_, ?_⟩
  · intro st env t n opt _
    obtain ⟨sz, sg⟩ := t
    constructor
    · cases sz <;> cases sg
      all_goals first
        | exact congrArg
            (fun z => Except.ok (value.Value.number z, ([] : List Effect)))
            (satCast_unsigned_toNat _ n)
        | rfl
    · intro h1 h2
      cases sz <;> cases sg <;>
        · simp only [satCast, intMin, intMax] at h1 h2 ⊢
          omega
  · intro st env b opt
    cases b <;> rfl
  · intro st env n opt
    rfl
  · intro st env n opt
    exact ⟨rfl, fun h => f32Cast_eq_self h⟩

/-- Witness for C2: the out-of-range value 300 marshaled as u8 round-trips
to its saturating cast, the in-range value 42 round-trips to itself, and a
small integer is `f32`-exact. -/
theorem C2_scalar_round_trip_witness :
    ((300 : Int).natAbs ≤ 2 ^ 53 ∧
      marshalRoundTrip GtkThreadState.default envFix
        (.integer ⟨.s8, .unsigned⟩) (.number 300) false =
        .ok (.number (satCast ⟨.s8, .unsigned⟩ 300), [])) ∧
    satCast ⟨.s8, .unsigned⟩ 42 = 42 ∧
    f32Cast 7 = 7 := by
  refine ⟨⟨by decide, ?_⟩, ?_, ?_⟩
  · exact (C2_scalar_round_trip.1 GtkThreadState.default envFix
      ⟨.s8, .unsigned⟩ 300 false (by decide)).1
  · exact (C2_scalar_round_trip.1 GtkThreadState.default envFix
      ⟨.s8, .unsigned⟩ 42 false (by decide)).2 (by decide) (by decide)
  · exact (C2_scalar_round_trip.2.2.2 GtkThreadState.default envFix 7
      false).2 (by decide)

end Gtkx
